import Mathlib

/-!
Shallow embedding of the `realtime_gtfs` repository
(`src/external_functions.py`, `src/classes/GTFSRealtimeClasses.py`,
`src/RealTimeGTFSConstructor.py`) and proofs about the claims of its
specification.

Modelling conventions:
* Python primitive values flowing through entity records and protobuf
  message fields are the inductive `PyVal`.  Python floats are modelled as
  exact rationals; `datetime.datetime` values as `PyDateTime`;
  `datetime.timedelta` values by their total length in seconds (a rational).
* A protobuf message object is modelled as a record whose fields are
  `Option`-valued slots: `Option.none` means the field was never assigned,
  `some v` that the Python code assigned the value `v` to it.  The protobuf
  runtime itself is an external dependency of the repository, so its own
  run-time type checks are not part of this embedding; the embedding studies
  which values the repository's code writes where.
* Faults raised by the repository's own Python lines (calling `round` on
  `None`, iterating over `None`, reading `.date()` of `None`, reading the
  `.seconds` attribute of a non-timedelta) are modelled with `Except PyErr`.
* Python dictionaries read with fixed keys via `.get(k, None)` are modelled
  as structures with one field per key, defaulting to `PyVal.none`; an
  absent key and a key explicitly bound to `None` are identified, exactly as
  `.get` identifies them.
-/

deriving instance DecidableEq for Except

set_option maxRecDepth 4096

namespace RealtimeGTFS

/-- A `datetime.datetime` value (the fields this repository reads). -/
structure PyDateTime where
  year : ℕ
  month : ℕ
  day : ℕ
  hour : ℕ
  minute : ℕ
  second : ℕ
  deriving DecidableEq, Repr

/-- Python primitive values appearing in this repository's records and
protobuf fields.  Floats are exact rationals; timedeltas are their total
length in seconds. -/
inductive PyVal where
  | none
  | bool (b : Bool)
  | int (n : ℤ)
  | rat (q : ℚ)
  | str (s : String)
  | timedelta (secs : ℚ)
  | datetime (dt : PyDateTime)
  deriving DecidableEq, Repr

/-- Python exception kinds raised by the repository's own code. -/
inductive PyErr where
  | typeError
  | valueError
  | attributeError
  deriving DecidableEq, Repr

/-- Zero-padded two-digit decimal rendering. -/
def pad2 (n : ℕ) : String :=
  if n < 10 then "0" ++ toString n else toString n

/-- Zero-padded four-digit decimal rendering. -/
def pad4 (n : ℕ) : String :=
  if n < 10 then "000" ++ toString n
  else if n < 100 then "00" ++ toString n
  else if n < 1000 then "0" ++ toString n
  else toString n

/-- `str(d.date())` for a datetime `d`. -/
def PyDateTime.dateStr (d : PyDateTime) : String :=
  pad4 d.year ++ "-" ++ pad2 d.month ++ "-" ++ pad2 d.day

/-- `str(d.time())` for a datetime `d`. -/
def PyDateTime.timeStr (d : PyDateTime) : String :=
  pad2 d.hour ++ ":" ++ pad2 d.minute ++ ":" ++ pad2 d.second

/-- Python's `round` on an exact rational: nearest integer, ties to even
(banker's rounding, as Python's `round` on floats and ints).  Phrased on
the numerator and denominator: with `f = ⌊q⌋`, the fractional part
`q - f = (q.num - f * q.den) / q.den` is compared against `1/2` by
cross-multiplying with the positive denominator. -/
def pyRound (q : ℚ) : ℤ :=
  let f := q.floor
  let twiceFrac := 2 * (q.num - f * (q.den : ℤ))
  if twiceFrac < (q.den : ℤ) then f
  else if (q.den : ℤ) < twiceFrac then f + 1
  else if f % 2 = 0 then f else f + 1

/-- `round(math.sqrt q)` for a nonnegative rational `q`: the real square
root rounded to the nearest integer (computed exactly through `Nat.sqrt`;
the measure-zero exact-half tie rounds up). -/
def roundSqrt (q : ℚ) : ℤ :=
  ((Nat.sqrt (4 * q.num.toNat * q.den) / q.den + 1) / 2 : ℕ)

/-- Python `str(x)` for the values this repository stringifies (entity and
stop identifiers, metadata ids).  Rational (float) and timedelta renderings
cover the integral cases exactly; they are never applied to other shapes by
the claims below. -/
def pyStr : PyVal → String
  | .none => "None"
  | .bool true => "True"
  | .bool false => "False"
  | .int n => toString n
  | .rat q => if q.den = 1 then toString q.num ++ ".0" else toString q
  | .str s => s
  | .timedelta secs =>
      let t : ℤ := secs.floor
      let days : ℤ := t / 86400
      let rem : ℤ := t % 86400
      let hh : ℤ := rem / 3600
      let mm : ℤ := rem % 3600 / 60
      let ss : ℤ := rem % 60
      (if days = 0 then "" else toString days ++ " days, ") ++
        toString hh ++ ":" ++ pad2 mm.toNat ++ ":" ++ pad2 ss.toNat
  | .datetime d => d.dateStr ++ " " ++ d.timeStr

/-- Reading the `.seconds` attribute of a Python value: defined on
timedeltas only (their normalized seconds-of-day component); every other
value — in particular a `datetime` — raises `AttributeError`. -/
def pySeconds : PyVal → Except PyErr ℤ
  | .timedelta secs => .ok (secs.floor % 86400)
  | _ => .error .attributeError

/-- Numeric value of a decimal digit character; `Option.none` otherwise. -/
def digitVal (c : Char) : Option ℕ :=
  if c.isDigit then some (c.toNat - 48) else Option.none

/-- `datetime.fromisoformat` on the canonical `YYYY-MM-DDThh:mm:ss` core of
ISO-8601 (the date-time shape this repository's inputs use; the separator
may be `T` or a space).  Any string outside this shape, like any value whose
parse would raise in Python, yields `Option.none` here — matching the
enclosing `try`/`except` of `create_local_datetime`, which turns every
parse-time exception into `None`. -/
def fromisoformat (s : String) : Option PyDateTime :=
  match s.toList with
  | [y1, y2, y3, y4, h1, mo1, mo2, h2, d1, d2, sep, ho1, ho2, c1, mi1, mi2, c2, s1, s2] =>
    if h1 = '-' ∧ h2 = '-' ∧ (sep = 'T' ∨ sep = ' ') ∧ c1 = ':' ∧ c2 = ':' then
      match digitVal y1, digitVal y2, digitVal y3, digitVal y4,
            digitVal mo1, digitVal mo2, digitVal d1, digitVal d2,
            digitVal ho1, digitVal ho2, digitVal mi1, digitVal mi2,
            digitVal s1, digitVal s2 with
      | some a, some b, some c, some d, some e, some f, some g, some h,
        some i, some j, some k, some l, some m, some n =>
        let year := a * 1000 + b * 100 + c * 10 + d
        let month := e * 10 + f
        let day := g * 10 + h
        let hour := i * 10 + j
        let minute := k * 10 + l
        let second := m * 10 + n
        if 1 ≤ month ∧ month ≤ 12 ∧ 1 ≤ day ∧ day ≤ 31 ∧
            hour ≤ 23 ∧ minute ≤ 59 ∧ second ≤ 59 then
          some ⟨year, month, day, hour, minute, second⟩
        else Option.none
      | _, _, _, _, _, _, _, _, _, _, _, _, _, _ => Option.none
    else Option.none
  | _ => Option.none

/-- `create_local_datetime` (`src/external_functions.py` and the identical
static method of `RealTimeEntity`): parse an ISO-8601 string, substituting
`None` for every failure — including the `TypeError` raised when the
argument is not a string at all (e.g. an absent field read as `None`). -/
def create_local_datetime : PyVal → Option PyDateTime
  | .str s => fromisoformat s
  | _ => Option.none

/-- One record of the `stop_times` list consumed by `calculate_delays`:
the three keys the function reads.  Scheduled times are modelled in seconds
(`timedelta`-style; adding a `timedelta(seconds = t)` is addition of `t`). -/
structure StopTimeIn where
  shape_dist_traveled : ℚ
  arrival_time : ℚ
  departure_time : ℚ
  deriving DecidableEq, Repr

/-- One record of the list returned by `calculate_delays`: the input keys
plus the keys the function writes (`arrival`, `departure` only on the
`add_delay_to_stop_times` branch; `delay` on both branches). -/
structure StopTimeOut where
  shape_dist_traveled : ℚ
  arrival_time : ℚ
  departure_time : ℚ
  arrival : Option ℚ := Option.none
  departure : Option ℚ := Option.none
  delay : Option ℤ := Option.none
  deriving DecidableEq, Repr

/-- `calculate_delays` (`src/external_functions.py`, lines 12–60), faithful
to the source's order of operations:

1. `None` or empty `stop_times` returns `None`;
2. read the first stop's `shape_dist_traveled`;
3. clamp the speed into `[10, 100]`;
4. evaluate `round(current_acceleration)` — when the acceleration was not
   supplied (its default is `None`) this is `round(None)` and raises
   `TypeError`; when it rounds to zero the acceleration is discarded;
5. constant-velocity time `d / speed` without acceleration, else the
   from-rest time `sqrt(2 d / a)` (`math.sqrt` raises `ValueError` on a
   negative argument);
6. round the time to the nearest second and write it into every stop. -/
def calculate_delays (current_speed : ℚ) (current_acceleration : Option ℚ)
    (stop_times : Option (List StopTimeIn)) (add_delay_to_stop_times : Bool) :
    Except PyErr (Option (List StopTimeOut)) :=
  match stop_times with
  | Option.none => .ok Option.none
  | some sts =>
    match sts with
    | [] => .ok Option.none
    | next :: _ =>
        let next_stop_distance := next.shape_dist_traveled
        let lower_limit : ℚ := 10
        let upper_limit : ℚ := 100
        let speed_to_use := max lower_limit (min upper_limit current_speed)
        match current_acceleration with
        | Option.none => .error .typeError
        | some a =>
          let acc := if pyRound a ≠ 0 then some a else Option.none
          let time? : Except PyErr ℚ :=
            match acc with
            | Option.none => .ok (next_stop_distance / speed_to_use)
            | some a => if (2 * next_stop_distance) / a < 0 then .error .valueError
                        else .ok ((2 * next_stop_distance) / a)
          match time? with
          | .error e => .error e
          | .ok t =>
            let time_until_next_stop : ℤ :=
              match acc with
              | Option.none => pyRound t
              | some _ => roundSqrt t
            if ¬ add_delay_to_stop_times then
              .ok (some (sts.map fun st =>
                { shape_dist_traveled := st.shape_dist_traveled
                  arrival_time := st.arrival_time
                  departure_time := st.departure_time
                  delay := some time_until_next_stop }))
            else
              .ok (some (sts.map fun st =>
                { shape_dist_traveled := st.shape_dist_traveled
                  arrival_time := st.arrival_time
                  departure_time := st.departure_time
                  arrival := some (st.arrival_time + Rat.ofInt time_until_next_stop)
                  departure := some (st.departure_time + Rat.ofInt time_until_next_stop)
                  delay := some time_until_next_stop }))

/-! ## The protobuf message model

Each message of `gtfs_realtime_pb2` that the repository writes to is a
record of `Option`-valued slots: `some v` when the code assigned `v`,
`Option.none` when the field was never assigned. -/

/-- `TripDescriptor` message. -/
structure TripDescriptorPB where
  trip_id : Option PyVal := Option.none
  route_id : Option PyVal := Option.none
  start_time : Option PyVal := Option.none
  start_date : Option PyVal := Option.none
  deriving DecidableEq, Repr

/-- `VehicleDescriptor` message. -/
structure VehicleDescriptorPB where
  license_plate : Option PyVal := Option.none
  label : Option PyVal := Option.none
  deriving DecidableEq, Repr

/-- `Position` message. -/
structure PositionPB where
  latitude : Option PyVal := Option.none
  longitude : Option PyVal := Option.none
  odometer : Option PyVal := Option.none
  speed : Option PyVal := Option.none
  deriving DecidableEq, Repr

/-- `VehiclePosition` message. -/
structure VehiclePB where
  trip : TripDescriptorPB := {}
  vehicle : VehicleDescriptorPB := {}
  position : PositionPB := {}
  occupancy_status : Option PyVal := Option.none
  congestion_level : Option PyVal := Option.none
  current_stop_sequence : Option PyVal := Option.none
  stop_id : Option PyVal := Option.none
  current_status : Option PyVal := Option.none
  deriving DecidableEq, Repr

/-- `TripUpdate.StopTimeEvent` message (the `delay` slot the code writes). -/
structure StopTimeEventPB where
  delay : Option ℤ := Option.none
  deriving DecidableEq, Repr

/-- `TripUpdate.StopTimeUpdate` message. -/
structure StopTimeUpdatePB where
  stop_sequence : Option PyVal := Option.none
  stop_id : Option PyVal := Option.none
  arrival : StopTimeEventPB := {}
  departure : StopTimeEventPB := {}
  deriving DecidableEq, Repr

/-- `TripUpdate` message. -/
structure TripUpdatePB where
  trip : TripDescriptorPB := {}
  vehicle : VehicleDescriptorPB := {}
  stop_time_update : List StopTimeUpdatePB := []
  deriving DecidableEq, Repr

/-- `TranslatedString.Translation` message. -/
structure TranslationPB where
  text : Option PyVal := Option.none
  language : Option PyVal := Option.none
  deriving DecidableEq, Repr

/-- `TranslatedString` message. -/
structure TranslatedStringPB where
  translation : List TranslationPB := []
  deriving DecidableEq, Repr

/-- `TimeRange` message. -/
structure TimeRangePB where
  start : Option PyVal := Option.none
  end_ : Option PyVal := Option.none
  deriving DecidableEq, Repr

/-- `EntitySelector` message. -/
structure EntitySelectorPB where
  agency_id : Option PyVal := Option.none
  route_id : Option PyVal := Option.none
  route_type : Option ℤ := Option.none
  trip : TripDescriptorPB := {}
  deriving DecidableEq, Repr

/-- `Alert` message. -/
structure AlertPB where
  active_period : List TimeRangePB := []
  informed_entity : List EntitySelectorPB := []
  cause : Option PyVal := Option.none
  effect : Option PyVal := Option.none
  url : TranslatedStringPB := {}
  header_text : TranslatedStringPB := {}
  description_text : TranslatedStringPB := {}
  deriving DecidableEq, Repr

/-- `FeedEntity` message. -/
structure FeedEntityPB where
  id : Option PyVal := Option.none
  vehicle : VehiclePB := {}
  trip_update : TripUpdatePB := {}
  alert : AlertPB := {}
  deriving DecidableEq, Repr

/-- `FeedHeader` message, its timestamp in epoch seconds. -/
structure FeedHeaderPB where
  gtfs_realtime_version : Option String := Option.none
  incrementality : Option String := Option.none
  timestamp : Option ℤ := Option.none
  deriving DecidableEq, Repr

/-- `FeedMessage` protobuf message. -/
structure FeedMessagePB where
  header : FeedHeaderPB := {}
  entity : List FeedEntityPB := []
  deriving DecidableEq, Repr

/-! ## `RealTimeEntity` and its subclasses
(`src/classes/GTFSRealtimeClasses.py`) -/

/-- The input record (`data_of_entity` dictionary) of `RealTimeEntity`:
one field per key the class reads with `.get(key, None)`, defaulting to
`PyVal.none` exactly as `.get` defaults an absent key to `None`. -/
structure EntityRecord where
  id : PyVal := .none
  company_id : PyVal := .none
  datetime : PyVal := .none
  user_id : PyVal := .none
  trip_id : PyVal := .none
  route_id : PyVal := .none
  license_plate : PyVal := .none
  start_time : PyVal := .none
  start_date : PyVal := .none
  location : PyVal := .none
  latitude : PyVal := .none
  longitude : PyVal := .none
  heading : PyVal := .none
  speed : PyVal := .none
  speed_accuracy : PyVal := .none
  odometer : PyVal := .none
  congestion_level : PyVal := .none
  occupancy_status : PyVal := .none
  stop_sequence : PyVal := .none
  stop_id : PyVal := .none
  current_status : PyVal := .none
  agency_id : PyVal := .none
  deriving DecidableEq, Repr

/-- The state of a constructed `RealTimeEntity` object (its `self`
attributes after `__init__`).  (`agency_id` in the record is read only by
the feed assembler's metadata collector, not by the entity classes.) -/
structure RealTimeEntity where
  entity : FeedEntityPB
  time : Option String
  date : Option String
  id : PyVal
  company_id : PyVal
  dt : Option PyDateTime
  user_id : PyVal
  trip_id : PyVal
  route_id : PyVal
  license_plate : PyVal
  start_time : PyVal
  start_date : PyVal
  location : PyVal
  latitude : PyVal
  longitude : PyVal
  heading : PyVal
  speed : PyVal
  speed_accuracy : PyVal
  odometer : PyVal
  congestion_level : PyVal
  occupancy_status : PyVal
  current_stop_sequence : PyVal
  stop_id : PyVal
  current_status : PyVal
  deriving DecidableEq, Repr

/-- `RealTimeEntity.update_time_and_date`: decomposes `self.datetime` into
the `date` and `time` strings.  When the datetime is `None` (a parse
failure or an absent input field), `self.datetime.date()` raises
`AttributeError`. -/
def RealTimeEntity.update_time_and_date (e : RealTimeEntity) :
    Except PyErr RealTimeEntity :=
  match e.dt with
  | Option.none => .error .attributeError
  | some d => .ok { e with date := some d.dateStr, time := some d.timeStr }

/-- `RealTimeEntity.__init__`: reads every field of the input record,
parses the `datetime` string (substituting `None` on failure), then calls
`update_time_and_date` — which raises when the parse substituted `None`. -/
def RealTimeEntity.init (data_of_entity : EntityRecord) :
    Except PyErr RealTimeEntity :=
  let e : RealTimeEntity :=
    { entity := {}
      time := Option.none
      date := Option.none
      id := data_of_entity.id
      company_id := data_of_entity.company_id
      dt := create_local_datetime data_of_entity.datetime
      user_id := data_of_entity.user_id
      trip_id := data_of_entity.trip_id
      route_id := data_of_entity.route_id
      license_plate := data_of_entity.license_plate
      start_time := data_of_entity.start_time
      start_date := data_of_entity.start_date
      location := data_of_entity.location
      latitude := data_of_entity.latitude
      longitude := data_of_entity.longitude
      heading := data_of_entity.heading
      speed := data_of_entity.speed
      speed_accuracy := data_of_entity.speed_accuracy
      odometer := data_of_entity.odometer
      congestion_level := data_of_entity.congestion_level
      occupancy_status := data_of_entity.occupancy_status
      current_stop_sequence := data_of_entity.stop_sequence
      stop_id := data_of_entity.stop_id
      current_status := data_of_entity.current_status }
  e.update_time_and_date

/-- `RealTimeEntity.populate_trip_descriptor`.  In the `'vehicle_position'`
branch the trip id, route id and (when present) start time go to
`entity.vehicle.trip`.  In the `'trip_update'` branch the trip id and
route id go to `entity.trip_update.trip`, but the source writes the
conditional `start_time` and `start_date` to `entity.vehicle.trip`
(lines 116–121), not to `entity.trip_update.trip`. -/
def RealTimeEntity.populate_trip_descriptor (e : RealTimeEntity)
    (setting : String) : RealTimeEntity :=
  let e :=
    if setting = "vehicle_position" then
      let ent := e.entity
      let ent := { ent with vehicle.trip.trip_id := some e.trip_id,
                            vehicle.trip.route_id := some e.route_id }
      let ent :=
        if e.start_time ≠ .none then
          { ent with vehicle.trip.start_time := some e.start_time }
        else ent
      { e with entity := ent }
    else e
  if setting = "trip_update" then
    let ent := e.entity
    let ent := { ent with trip_update.trip.trip_id := some e.trip_id,
                          trip_update.trip.route_id := some e.route_id }
    let ent :=
      if e.start_time ≠ .none then
        { ent with vehicle.trip.start_time := some e.start_time }
      else ent
    let ent :=
      if e.start_date ≠ .none then
        { ent with vehicle.trip.start_date := some e.start_date }
      else ent
    { e with entity := ent }
  else e

/-- `VehiclePositionEntity.__populate_position`: latitude, longitude,
odometer and speed are copied verbatim from the record — no guard and no
default substitution on any of the four. -/
def VehiclePositionEntity.populate_position (e : RealTimeEntity) :
    RealTimeEntity :=
  { e with entity.vehicle.position.latitude := some e.latitude,
           entity.vehicle.position.longitude := some e.longitude,
           entity.vehicle.position.odometer := some e.odometer,
           entity.vehicle.position.speed := some e.speed }

/-- `VehiclePositionEntity.__populate_entity`: id, position, trip
descriptor, then the empty-string-defaulted occupancy/congestion, the
conditional `current_stop_sequence`, the empty-string-defaulted `stop_id`,
and the verbatim `current_status`. -/
def VehiclePositionEntity.populate_entity (e : RealTimeEntity) :
    RealTimeEntity :=
  let e := { e with entity.id := some e.id }
  let e := VehiclePositionEntity.populate_position e
  let e := e.populate_trip_descriptor "vehicle_position"
  let e := { e with
    entity.vehicle.occupancy_status :=
      some (if e.occupancy_status ≠ .none then e.occupancy_status else .str "")
    entity.vehicle.congestion_level :=
      some (if e.congestion_level ≠ .none then e.congestion_level else .str "") }
  let e :=
    if e.current_stop_sequence ≠ .none then
      { e with entity.vehicle.current_stop_sequence := some e.current_stop_sequence }
    else e
  { e with
    entity.vehicle.stop_id :=
      some (if e.stop_id ≠ .none then e.stop_id else .str "")
    entity.vehicle.current_status := some e.current_status }

/-- `VehiclePositionEntity.__init__`: the base `RealTimeEntity` constructor
followed by `__populate_entity`. -/
def VehiclePositionEntity.init (data_of_entity : EntityRecord) :
    Except PyErr RealTimeEntity :=
  (RealTimeEntity.init data_of_entity).map VehiclePositionEntity.populate_entity

/-- One record of the `stop_times_predictions` list consumed by
`TripUpdateEntity`: the four keys `__populate_stop_time_update` indexes. -/
structure StopTimePred where
  stop_sequence : PyVal := .none
  stop_id : PyVal := .none
  arrival : PyVal := .none
  departure : PyVal := .none
  deriving DecidableEq, Repr

/-- The state of a constructed `TripUpdateEntity`. -/
structure TripUpdateEntity extends RealTimeEntity where
  stop_times_predictions : Option (List StopTimePred)
  deriving DecidableEq, Repr

/-- `TripUpdateEntity.__populate_stop_time_update`: one `StopTimeUpdate`
per prediction record — the stop sequence copied, the stop id coerced with
`str`, and the arrival/departure `delay` slots assigned the `.seconds`
attribute of the record's pre-computed `arrival`/`departure` values (an
`AttributeError` when those values have no such attribute, e.g. are
`datetime`s). -/
def TripUpdateEntity.populate_stop_time_update (stop_time_data : StopTimePred) :
    Except PyErr StopTimeUpdatePB := do
  let arrivalSecs ← pySeconds stop_time_data.arrival
  let departureSecs ← pySeconds stop_time_data.departure
  .ok { stop_sequence := some stop_time_data.stop_sequence
        stop_id := some (.str (pyStr stop_time_data.stop_id))
        arrival := { delay := some arrivalSecs }
        departure := { delay := some departureSecs } }

/-- The `for stop_time_data in self.stop_times_predictions` loop of
`__populate_stop_times`: one `StopTimeUpdate` per record, in order. -/
def TripUpdateEntity.stop_times_loop :
    List StopTimePred → Except PyErr (List StopTimeUpdatePB)
  | [] => .ok []
  | p :: rest => do
    let u ← TripUpdateEntity.populate_stop_time_update p
    let us ← TripUpdateEntity.stop_times_loop rest
    .ok (u :: us)

/-- `TripUpdateEntity.__populate_stop_times`: a `None` prediction list is
tolerated (early return); otherwise every record is expanded and appended
in order. -/
def TripUpdateEntity.populate_stop_times (e : TripUpdateEntity) :
    Except PyErr TripUpdateEntity :=
  match e.stop_times_predictions with
  | Option.none => .ok e
  | some preds => do
    let updates ← TripUpdateEntity.stop_times_loop preds
    .ok { e with
      toRealTimeEntity := { e.toRealTimeEntity with
        entity.trip_update.stop_time_update :=
          e.entity.trip_update.stop_time_update ++ updates } }

/-- `TripUpdateEntity.__populate_entity`: id, trip descriptor (in the
`'trip_update'` setting), then the stop-time updates. -/
def TripUpdateEntity.populate_entity (e : TripUpdateEntity) :
    Except PyErr TripUpdateEntity :=
  let base := { e.toRealTimeEntity with entity.id := some e.id }
  let base := base.populate_trip_descriptor "trip_update"
  TripUpdateEntity.populate_stop_times { e with toRealTimeEntity := base }

/-- `TripUpdateEntity.__init__`: the base constructor, the stored
prediction list, then `__populate_entity`. -/
def TripUpdateEntity.init (data_of_entity : EntityRecord)
    (stop_times_predictions : Option (List StopTimePred)) :
    Except PyErr TripUpdateEntity := do
  let base ← RealTimeEntity.init data_of_entity
  TripUpdateEntity.populate_entity
    { toRealTimeEntity := base, stop_times_predictions := stop_times_predictions }

/-! ## The `Alert` builder (`src/classes/GTFSRealtimeClasses.py`) -/

/-- One record of the `time_periods` list: the two keys
`__populate_time_ranges` indexes (`end` is spelled `end_` here because
`end` is a Lean keyword). -/
structure TimeRangeIn where
  start : PyVal := .none
  end_ : PyVal := .none
  deriving DecidableEq, Repr

/-- One record of a text-data list (`url_data`, `header_text_data`,
`description_text_data`): the two keys `__generate_translation` indexes. -/
structure TextData where
  text : PyVal := .none
  language : PyVal := .none
  deriving DecidableEq, Repr

/-- One record of a `trips` selector list: the four keys
`__populate_trip_entity` reads with `.get(key, None)`. -/
structure TripSelRecord where
  trip_id : PyVal := .none
  route_id : PyVal := .none
  start_time : PyVal := .none
  start_date : PyVal := .none
  deriving DecidableEq, Repr

/-- One key/value pair of the `selected_entities` dictionary: the
selector-type key together with its list of items.  A key other than the
four recognized ones is `unknown`. -/
inductive Selector where
  | routes (items : List PyVal)
  | agencies (items : List PyVal)
  | route_types (items : List PyVal)
  | trips (items : List TripSelRecord)
  | unknown (selector_type : String) (items : List PyVal)
  deriving DecidableEq, Repr

/-- Python `int(x)` as used on `route_types` items: integers pass through,
booleans coerce, floats truncate toward zero, strings parse as decimal
integers (`ValueError` otherwise), and `None` raises `TypeError`. -/
def pyToInt : PyVal → Except PyErr ℤ
  | .int n => .ok n
  | .bool b => .ok (if b then 1 else 0)
  | .rat q => .ok (q.num / (q.den : ℤ))
  | .str s =>
      match s.trim.toInt? with
      | some n => .ok n
      | Option.none => .error .valueError
  | _ => .error .typeError

/-- The input record (`data_of_entity` dictionary) of `Alert`: one field
per key the class reads with `.get(key, None)`. -/
structure AlertRecord where
  id : PyVal := .none
  time_periods : Option (List TimeRangeIn) := Option.none
  selected_entities : Option (List Selector) := Option.none
  trip_data : PyVal := .none
  cause : PyVal := .none
  effect : PyVal := .none
  url_data : Option (List TextData) := Option.none
  header_text_data : Option (List TextData) := Option.none
  description_text_data : Option (List TextData) := Option.none
  deriving DecidableEq, Repr

/-- The state of a constructed `Alert` object. -/
structure Alert where
  id : PyVal
  entity : FeedEntityPB
  time_periods : Option (List TimeRangeIn)
  selected_entities : Option (List Selector)
  trip_data : PyVal
  cause : PyVal
  effect : PyVal
  url_data : Option (List TextData)
  header_text_data : Option (List TextData)
  description_text_data : Option (List TextData)
  deriving DecidableEq, Repr

/-- `Alert.__generate_translation`: a `Translation` carrying the record's
`text` and `language` values. -/
def Alert.generate_translation (data : TextData) : TranslationPB :=
  { text := some data.text, language := some data.language }

/-- `Alert.__populate_url`: iterates `self.url_data` (a `TypeError` when it
is `None`), appending one translation per record to the `url` slot. -/
def Alert.populate_url (a : Alert) : Except PyErr Alert :=
  match a.url_data with
  | Option.none => .error .typeError
  | some l => .ok { a with
      entity.alert.url.translation :=
        a.entity.alert.url.translation ++ l.map Alert.generate_translation }

/-- `Alert.__populate_header_text`: iterates `self.header_text_data` (a
`TypeError` when it is `None`), appending one translation per record to the
`header_text` slot. -/
def Alert.populate_header_text (a : Alert) : Except PyErr Alert :=
  match a.header_text_data with
  | Option.none => .error .typeError
  | some l => .ok { a with
      entity.alert.header_text.translation :=
        a.entity.alert.header_text.translation ++ l.map Alert.generate_translation }

/-- `Alert.__populate_description_text` (lines 277–280): iterates
`self.description_text_data` (a `TypeError` when it is `None`), appending
one translation per record — to the `header_text` slot, exactly as the
source does, leaving the `description_text` slot untouched. -/
def Alert.populate_description_text (a : Alert) : Except PyErr Alert :=
  match a.description_text_data with
  | Option.none => .error .typeError
  | some l => .ok { a with
      entity.alert.header_text.translation :=
        a.entity.alert.header_text.translation ++ l.map Alert.generate_translation }

/-- `Alert.__populate_trip_entity`: an `EntitySelector` whose trip
descriptor carries the record's present fields. -/
def Alert.populate_trip_entity (data : TripSelRecord) : EntitySelectorPB :=
  let sel : EntitySelectorPB := {}
  let sel := if data.trip_id ≠ .none then
    { sel with trip.trip_id := some data.trip_id } else sel
  let sel := if data.route_id ≠ .none then
    { sel with trip.route_id := some data.route_id } else sel
  let sel := if data.start_time ≠ .none then
    { sel with trip.start_time := some data.start_time } else sel
  let sel := if data.start_date ≠ .none then
    { sel with trip.start_date := some data.start_date } else sel
  sel

/-- The `route_types` branch's loop: each item coerced with `int` into a
`route_type` selector. -/
def Alert.route_types_loop : List PyVal → Except PyErr (List EntitySelectorPB)
  | [] => .ok []
  | item :: rest => do
    let n ← pyToInt item
    let sels ← Alert.route_types_loop rest
    .ok ({ route_type := some n } :: sels)

/-- `Alert.populate_entity_selector`: dispatch on the selector-type key;
`routes`/`agencies` stringify each item, `route_types` coerces each item
with `int`, `trips` builds trip descriptors, and an unrecognized key
produces the empty list. -/
def Alert.populate_entity_selector : Selector → Except PyErr (List EntitySelectorPB)
  | .routes items => .ok (items.map fun item =>
      { route_id := some (.str (pyStr item)) })
  | .agencies items => .ok (items.map fun item =>
      { agency_id := some (.str (pyStr item)) })
  | .route_types items => Alert.route_types_loop items
  | .trips items => .ok (items.map Alert.populate_trip_entity)
  | .unknown _ _ => .ok []

/-- The `temp_output += self.populate_entity_selector(...)` accumulation of
`populate_selected_entities`, one selector-type key at a time. -/
def Alert.selector_loop : List Selector → Except PyErr (List EntitySelectorPB)
  | [] => .ok []
  | s :: rest => do
    let part ← Alert.populate_entity_selector s
    let parts ← Alert.selector_loop rest
    .ok (part ++ parts)

/-- `Alert.populate_selected_entities`: iterates the `selected_entities`
dictionary (a `TypeError` when it is `None`), concatenating the selector
lists in key order and appending them to `informed_entity`. -/
def Alert.populate_selected_entities (a : Alert) : Except PyErr Alert :=
  match a.selected_entities with
  | Option.none => .error .typeError
  | some sels => do
    let parts ← Alert.selector_loop sels
    .ok { a with
      entity.alert.informed_entity :=
        a.entity.alert.informed_entity ++ parts }

/-- `Alert.__populate_time_ranges`: iterates `self.time_periods` (a
`TypeError` when it is `None`), appending one `TimeRange` per record. -/
def Alert.populate_time_ranges (a : Alert) : Except PyErr Alert :=
  match a.time_periods with
  | Option.none => .error .typeError
  | some l => .ok { a with
      entity.alert.active_period :=
        a.entity.alert.active_period ++
          l.map fun i => { start := some i.start, end_ := some i.end_ } }

/-- `Alert.__populate_cause_and_effect`: both copied verbatim. -/
def Alert.populate_cause_and_effect (a : Alert) : Alert :=
  { a with entity.alert.cause := some a.cause,
           entity.alert.effect := some a.effect }

/-- `Alert.__populate_entity`: id, then the five sub-structures in source
order — time ranges, selected entities, cause/effect, url, header text,
description text. -/
def Alert.populate_entity (a : Alert) : Except PyErr Alert := do
  let a := { a with entity.id := some a.id }
  let a ← a.populate_time_ranges
  let a ← a.populate_selected_entities
  let a := a.populate_cause_and_effect
  let a ← a.populate_url
  let a ← a.populate_header_text
  a.populate_description_text

/-- `Alert.__init__`: reads every field of the input record, then calls
`__populate_entity`. -/
def Alert.init (data_of_entity : AlertRecord) : Except PyErr Alert :=
  Alert.populate_entity
    { id := data_of_entity.id
      entity := {}
      time_periods := data_of_entity.time_periods
      selected_entities := data_of_entity.selected_entities
      trip_data := data_of_entity.trip_data
      cause := data_of_entity.cause
      effect := data_of_entity.effect
      url_data := data_of_entity.url_data
      header_text_data := data_of_entity.header_text_data
      description_text_data := data_of_entity.description_text_data }

/-! ## `FeedMessage` and `RealTimeGTFSConstructor`
(`src/classes/GTFSRealtimeClasses.py`, `src/RealTimeGTFSConstructor.py`) -/

/-- The `FeedMessage` wrapper class: it owns one protobuf `FeedMessage`. -/
structure FeedMessage where
  message : FeedMessagePB := {}
  deriving DecidableEq, Repr

/-- `FeedMessage.populate_header`: version string `'2.0'`, the
incrementality marker chosen by `is_differential`, and the current
wall-clock epoch seconds — the clock reading `int(datetime.utcnow()
.timestamp())` is passed in as the parameter `now`. -/
def FeedMessage.populate_header (m : FeedMessage) (is_differential : Bool)
    (now : ℤ) : FeedMessage :=
  { m with
    message.header.gtfs_realtime_version := some "2.0"
    message.header.incrementality :=
      some (if is_differential then "DIFFERENTIAL" else "FULL_DATASET")
    message.header.timestamp := some now }

/-- One value of the constructor's `metadata` dictionary: a list of ids
while accumulating, a single string once `__finalize_metadata` has joined
it. -/
inductive MetaVal where
  | items (l : List PyVal)
  | joined (s : String)
  deriving DecidableEq, Repr

/-- `list.append` on a metadata value: appending to an already-joined
string raises `AttributeError` (`str` has no `append`). -/
def MetaVal.append (m : MetaVal) (v : PyVal) : Except PyErr MetaVal :=
  match m with
  | .items l => .ok (.items (l ++ [v]))
  | .joined _ => .error .attributeError

/-- `' '.join([str(x) for x in m])` on a metadata value: a list of ids is
joined into one space-separated string; a string — already joined — is
iterated character by character, so each of its characters is re-joined
with spaces in between. -/
def MetaVal.finalizeJoin (m : MetaVal) : MetaVal :=
  match m with
  | .items l => .joined (String.intercalate " " (l.map pyStr))
  | .joined s => .joined (String.intercalate " " (s.toList.map fun c => String.mk [c]))

/-- The constructor's `metadata` dictionary (`trip_ids`, `route_ids`,
`agency_ids`). -/
structure Metadata where
  trip_ids : MetaVal := .items []
  route_ids : MetaVal := .items []
  agency_ids : MetaVal := .items []
  deriving DecidableEq, Repr

/-- The `RealTimeGTFSConstructor` state: the feed message being built and
the metadata accumulator, both as `__init__` creates them. -/
structure RealTimeGTFSConstructor where
  message : FeedMessage := {}
  metadata : Metadata := {}
  deriving DecidableEq, Repr

/-- `RealTimeGTFSConstructor.__collect_metadata`: for each of `trip_id`,
`route_id`, `agency_id` present in the record, append its value to the
matching metadata list.  A record key bound to `None` is treated as absent
(the embedding of records identifies the two, see the file header). -/
def RealTimeGTFSConstructor.collect_metadata (c : RealTimeGTFSConstructor)
    (entity_data : EntityRecord) : Except PyErr RealTimeGTFSConstructor := do
  let tripIds ← if entity_data.trip_id ≠ .none then
      c.metadata.trip_ids.append entity_data.trip_id else pure c.metadata.trip_ids
  let routeIds ← if entity_data.route_id ≠ .none then
      c.metadata.route_ids.append entity_data.route_id else pure c.metadata.route_ids
  let agencyIds ← if entity_data.agency_id ≠ .none then
      c.metadata.agency_ids.append entity_data.agency_id else pure c.metadata.agency_ids
  .ok { c with metadata.trip_ids := tripIds, metadata.route_ids := routeIds,
               metadata.agency_ids := agencyIds }

/-- `RealTimeGTFSConstructor.__finalize_metadata`: joins every metadata
value into a space-separated string — unconditionally, with no single-use
guard, so a value that is already a joined string is joined again,
character by character. -/
def RealTimeGTFSConstructor.finalize_metadata (c : RealTimeGTFSConstructor) :
    RealTimeGTFSConstructor :=
  { c with
    metadata.trip_ids := c.metadata.trip_ids.finalizeJoin
    metadata.route_ids := c.metadata.route_ids.finalizeJoin
    metadata.agency_ids := c.metadata.agency_ids.finalizeJoin }

/-- The `for entity_data in data_of_entities` loop of `generate_avl_feed`:
build a `VehiclePositionEntity` per record, append its entity to the
message, collect the record's metadata. -/
def RealTimeGTFSConstructor.add_avl (c : RealTimeGTFSConstructor) :
    List EntityRecord → Except PyErr RealTimeGTFSConstructor
  | [] => .ok c
  | r :: rest => do
    let v ← VehiclePositionEntity.init r
    let c := { c with
      message.message.entity := c.message.message.entity ++ [v.entity] }
    let c ← c.collect_metadata r
    c.add_avl rest

/-- `RealTimeGTFSConstructor.generate_avl_feed`: an empty batch produces no
message and leaves the state untouched; otherwise every record is appended,
the header is stamped, the metadata is finalized, and the message is
returned.  The mutated constructor is returned alongside the result, so
that a second call on the same instance is expressible. -/
def RealTimeGTFSConstructor.generate_avl_feed (c : RealTimeGTFSConstructor)
    (data_of_entities : List EntityRecord) (is_differential : Bool) (now : ℤ) :
    Except PyErr (RealTimeGTFSConstructor × Option FeedMessage) :=
  if data_of_entities.length = 0 then .ok (c, Option.none)
  else do
    let c ← c.add_avl data_of_entities
    let c := { c with message := c.message.populate_header is_differential now }
    let c := c.finalize_metadata
    .ok (c, some c.message)

/-! ## Concrete records used by witnesses and counterexamples -/

/-- A well-formed entity record: parseable datetime, ids, coordinates and
current status present; odometer, speed, occupancy status, congestion
level, stop id and stop sequence absent. -/
def exRecord : EntityRecord :=
  { id := .str "e1", datetime := .str "2024-01-01T08:00:00", trip_id := .str "t1",
    route_id := .str "r1", latitude := .rat 10, longitude := .rat 20,
    current_status := .int 2 }

/-- `exRecord` with frequency-based start time and start date present. -/
def exRecordStart : EntityRecord :=
  { exRecord with start_time := .str "08:00:00", start_date := .str "20240101" }

/-- `exRecord` with a different trip id. -/
def exRecordT2 : EntityRecord := { exRecord with trip_id := .str "t2" }

/-- `exRecord` with no trip, route or agency id (nothing for the metadata
collector to pick up). -/
def exRecordNoIds : EntityRecord :=
  { exRecord with trip_id := .none, route_id := .none }

/-- An entity record with no `datetime` key at all. -/
def exRecordNoDatetime : EntityRecord := { id := .str "e1" }

/-- A stop-time prediction whose pre-computed arrival and departure are the
timedelta 01:00:10 — the scheduled time 01:00:00 shifted by a 10-second
delay, as the Delay Estimator produces. -/
def exPred : StopTimePred :=
  { stop_sequence := .int 1, stop_id := .int 7,
    arrival := .timedelta 3610, departure := .timedelta 3610 }

/-- A fully-populated alert record: one time range, one routes selector,
cause and effect, no url translations, one header translation and one
description translation. -/
def exAlertRecord : AlertRecord :=
  { id := .str "a1"
    time_periods := some [{ start := .int 100, end_ := .int 200 }]
    selected_entities := some [.routes [.str "A", .str "B"]]
    cause := .int 1
    effect := .int 2
    url_data := some []
    header_text_data := some [{ text := .str "H", language := .str "en" }]
    description_text_data := some [{ text := .str "D", language := .str "en" }] }

/-- `exAlertRecord` with the `url_data` key absent. -/
def exAlertRecordNoUrl : AlertRecord := { exAlertRecord with url_data := Option.none }

/-! ## Claims -/

/-- C1: the claim reads `calculate_delays` with a non-empty `stop_times`
and no `current_acceleration` as using constant-velocity projection, so
that `stop_times = [{shape_dist_traveled: 100, arrival_time: T,
departure_time: T}]` with `current_speed = 5` yields a 10-second delay and
arrival `T+10s`.  On the code, every call that omits the acceleration
reaches `round(current_acceleration)` with `None` and raises `TypeError`
before any projection; the claimed constant-velocity result (clamped speed
10, delay `round(100/10) = 10`, arrival `T+10s`) is produced only when an
acceleration that rounds to zero (here `0.0`) is passed explicitly. -/
theorem C1_missing_acceleration_raises_instead_of_projecting :
    calculate_delays 5 Option.none
        (some [{ shape_dist_traveled := 100, arrival_time := 0, departure_time := 0 }])
        true
      = .error .typeError ∧
    calculate_delays 5 (some 0)
        (some [{ shape_dist_traveled := 100, arrival_time := 0, departure_time := 0 }])
        true
      = .ok (some [{ shape_dist_traveled := 100, arrival_time := 0,
                     departure_time := 0, arrival := some 10,
                     departure := some 10, delay := some 10 }]) := by
  exact ⟨by rfl, by with_unfolding_all decide⟩

/-- C2: the claim reads the Trip Update builder as emitting each
prediction's arrival/departure **delay offset in seconds relative to the
scheduled time**.  The code instead assigns the `.seconds` attribute of the
pre-computed arrival/departure value itself: for a stop scheduled at
01:00:00 predicted 10 seconds late (arrival value 01:00:10, a timedelta of
3610 seconds), the emitted delay is 3610, not the 10-second offset — and
when the pre-computed value is a `datetime`, reading `.seconds` raises
`AttributeError`.  Stop sequence and stringified stop id are copied as
claimed. -/
theorem C2_delay_is_seconds_attribute_not_offset :
    (TripUpdateEntity.init exRecord (some [exPred])).map
        (fun e => e.entity.trip_update.stop_time_update)
      = .ok [{ stop_sequence := some (.int 1), stop_id := some (.str "7"),
               arrival := { delay := some 3610 }, departure := { delay := some 3610 } }] ∧
    (3610 : ℤ) ≠ 10 ∧
    pySeconds (.datetime ⟨2024, 1, 1, 1, 0, 10⟩) = .error .attributeError := by
  refine ⟨by rfl, by decide, by rfl⟩

/-- C3, counterexample: the claim says an absent odometer (and speed) is
replaced by the schema zero value.  On `exRecord` — odometer and speed
absent — the builder assigns the vehicle position's odometer slot the
copied `None` value, which is neither the zero float nor the zero
integer. -/
theorem C3_counterexample_odometer_not_zero_defaulted :
    (VehiclePositionEntity.init exRecord).map
        (fun e => (e.entity.vehicle.position.odometer, e.entity.vehicle.position.speed))
      = .ok (some PyVal.none, some PyVal.none) ∧
    some PyVal.none ≠ some (PyVal.rat 0) ∧ some PyVal.none ≠ some (PyVal.int 0) := by
  exact ⟨by rfl, by decide, by decide⟩

/-- C3, amended: for every record on which construction succeeds (its
datetime parses), latitude, longitude, **odometer and speed are all copied
verbatim — no zero substitution for the absent ones**; occupancy status,
congestion level and stop id get the empty-string sentinel when absent; and
`current_stop_sequence` is assigned only when `stop_sequence` is present in
the input. -/
theorem C3_amended_position_copied_verbatim_and_sentinels
    (r : EntityRecord) (h : (create_local_datetime r.datetime).isSome = true) :
    (VehiclePositionEntity.init r).map (fun e =>
        (e.entity.vehicle.position.latitude, e.entity.vehicle.position.longitude,
         e.entity.vehicle.position.odometer, e.entity.vehicle.position.speed,
         e.entity.vehicle.occupancy_status, e.entity.vehicle.congestion_level,
         e.entity.vehicle.current_stop_sequence, e.entity.vehicle.stop_id))
      = .ok (some r.latitude, some r.longitude, some r.odometer, some r.speed,
             some (if r.occupancy_status ≠ .none then r.occupancy_status else .str ""),
             some (if r.congestion_level ≠ .none then r.congestion_level else .str ""),
             (if r.stop_sequence ≠ .none then some r.stop_sequence else Option.none),
             some (if r.stop_id ≠ .none then r.stop_id else .str "")) := by
  cases hdt : create_local_datetime r.datetime with
  | none => rw [hdt] at h; simp at h
  | some d =>
    by_cases hst : r.start_time = .none <;>
    by_cases hsq : r.stop_sequence = .none <;>
      simp [VehiclePositionEntity.init, RealTimeEntity.init,
            RealTimeEntity.update_time_and_date, hdt, Except.map,
            VehiclePositionEntity.populate_entity,
            VehiclePositionEntity.populate_position,
            RealTimeEntity.populate_trip_descriptor, hst, hsq]

/-- C3, witness for the amended theorem at `exRecord`. -/
theorem C3_amended_witness :
    (create_local_datetime exRecord.datetime).isSome = true ∧
    (VehiclePositionEntity.init exRecord).map (fun e =>
        (e.entity.vehicle.position.latitude, e.entity.vehicle.position.longitude,
         e.entity.vehicle.position.odometer, e.entity.vehicle.position.speed,
         e.entity.vehicle.occupancy_status, e.entity.vehicle.congestion_level,
         e.entity.vehicle.current_stop_sequence, e.entity.vehicle.stop_id))
      = .ok (some (.rat 10), some (.rat 20), some .none, some .none,
             some (.str ""), some (.str ""), Option.none, some (.str "")) :=
  ⟨by decide, C3_amended_position_copied_verbatim_and_sentinels exRecord (by decide)⟩

/-- C4, counterexample: on a record with no `datetime` key, the parse does
substitute `None` silently, but entity construction then raises
`AttributeError` (decomposing the `None` datetime), refuting "does not
raise an error on account of the datetime". -/
theorem C4_counterexample_construction_raises_on_absent_datetime :
    create_local_datetime exRecordNoDatetime.datetime = Option.none ∧
    RealTimeEntity.init exRecordNoDatetime = .error .attributeError := by
  exact ⟨by rfl, by rfl⟩

/-- C4, amended: for every entity record whose `datetime` field is absent
or unparseable, `create_local_datetime` substitutes `None` silently, but
the constructor's subsequent `update_time_and_date` call dereferences the
`None` and raises `AttributeError` — construction fails rather than
tolerating the bad datetime. -/
theorem C4_amended_parse_failure_raises_attribute_error
    (r : EntityRecord) (h : create_local_datetime r.datetime = Option.none) :
    RealTimeEntity.init r = .error .attributeError := by
  simp [RealTimeEntity.init, RealTimeEntity.update_time_and_date, h]

/-- C4, witness for the amended theorem at the record with no datetime. -/
theorem C4_amended_witness :
    create_local_datetime exRecordNoDatetime.datetime = Option.none ∧
    RealTimeEntity.init exRecordNoDatetime = .error .attributeError :=
  ⟨rfl, C4_amended_parse_failure_raises_attribute_error exRecordNoDatetime rfl⟩

/-- C5: the claim says a present `start_time` (resp. `start_date`) is
carried by the **trip update's** trip reference.  In the `'trip_update'`
branch the source instead writes both to `entity.vehicle.trip`
(`GTFSRealtimeClasses.py` lines 116–121): on a trip-update record with
`start_time = '08:00:00'` and `start_date = '20240101'`, the trip update's
trip reference carries neither, while the unrelated vehicle payload's trip
reference carries both. -/
theorem C5_start_fields_written_to_vehicle_trip :
    (TripUpdateEntity.init exRecordStart Option.none).map (fun e =>
        (e.entity.trip_update.trip.start_time, e.entity.trip_update.trip.start_date,
         e.entity.vehicle.trip.start_time, e.entity.vehicle.trip.start_date))
      = .ok (Option.none, Option.none,
             some (.str "08:00:00"), some (.str "20240101")) := by
  rfl

/-- C10: constructing a `TripUpdateEntity` with a `None` prediction list is
tolerated: for every entity record on which base construction succeeds (its
datetime parses), the constructor returns successfully and the entity's
`stop_time_update` sequence is empty. -/
theorem C10_none_predictions_tolerated
    (r : EntityRecord) (h : (create_local_datetime r.datetime).isSome = true) :
    (TripUpdateEntity.init r Option.none).map
        (fun e => e.entity.trip_update.stop_time_update) = .ok [] := by
  cases hdt : create_local_datetime r.datetime with
  | none => rw [hdt] at h; simp at h
  | some d =>
    by_cases hst : r.start_time = .none <;> by_cases hsd : r.start_date = .none <;>
      simp [TripUpdateEntity.init, RealTimeEntity.init,
            RealTimeEntity.update_time_and_date, hdt,
            TripUpdateEntity.populate_entity, RealTimeEntity.populate_trip_descriptor,
            TripUpdateEntity.populate_stop_times, hst, hsd, Except.map,
            bind, Except.bind]

/-- C10, witness at `exRecord`. -/
theorem C10_witness :
    (create_local_datetime exRecord.datetime).isSome = true ∧
    (TripUpdateEntity.init exRecord Option.none).map
        (fun e => e.entity.trip_update.stop_time_update) = .ok [] :=
  ⟨by decide, C10_none_predictions_tolerated exRecord (by decide)⟩

/-- Reduction of `bind` on an `ok` value of `Except PyErr`. -/
theorem except_bind_ok {α β : Type} (x : α) (f : α → Except PyErr β) :
    (bind (Except.ok x) f : Except PyErr β) = f x := rfl

/-- Reduction of `bind` on an `error` value of `Except PyErr`. -/
theorem except_bind_error {α β : Type} (e : PyErr) (f : α → Except PyErr β) :
    (bind (Except.error e) f : Except PyErr β) = .error e := rfl

/-- What a successful `Alert.__populate_entity` run guarantees: every
iterated sub-structure input was present (otherwise its loop would have
raised `TypeError`), the record fields are untouched, the header-text slot
has received the header translations **followed by the description
translations**, and the description-text slot is untouched. -/
theorem Alert.populate_entity_ok {a afinal : Alert}
    (h : Alert.populate_entity a = .ok afinal) :
    a.time_periods ≠ Option.none ∧ a.selected_entities ≠ Option.none ∧
    a.url_data ≠ Option.none ∧ a.header_text_data ≠ Option.none ∧
    a.description_text_data ≠ Option.none ∧
    afinal.entity.alert.header_text.translation =
      a.entity.alert.header_text.translation
        ++ (a.header_text_data.getD []).map Alert.generate_translation
        ++ (a.description_text_data.getD []).map Alert.generate_translation ∧
    afinal.entity.alert.description_text.translation =
      a.entity.alert.description_text.translation := by
  unfold Alert.populate_entity at h
  cases htp : a.time_periods with
  | none =>
    simp [Alert.populate_time_ranges, htp, except_bind_error, except_bind_ok] at h
  | some tps =>
  cases hse : a.selected_entities with
  | none =>
    simp [Alert.populate_time_ranges, Alert.populate_selected_entities,
          htp, hse, except_bind_error, except_bind_ok] at h
  | some sels =>
  cases hparts : Alert.selector_loop sels with
  | error e =>
    simp [Alert.populate_time_ranges, Alert.populate_selected_entities,
          htp, hse, hparts, except_bind_error, except_bind_ok] at h
  | ok parts =>
  cases hurl : a.url_data with
  | none =>
    simp [Alert.populate_time_ranges, Alert.populate_selected_entities,
          Alert.populate_cause_and_effect, Alert.populate_url,
          htp, hse, hparts, hurl, except_bind_error, except_bind_ok] at h
  | some urls =>
  cases hht : a.header_text_data with
  | none =>
    simp [Alert.populate_time_ranges, Alert.populate_selected_entities,
          Alert.populate_cause_and_effect, Alert.populate_url,
          Alert.populate_header_text,
          htp, hse, hparts, hurl, hht, except_bind_error, except_bind_ok] at h
  | some hts =>
  cases hdt : a.description_text_data with
  | none =>
    simp [Alert.populate_time_ranges, Alert.populate_selected_entities,
          Alert.populate_cause_and_effect, Alert.populate_url,
          Alert.populate_header_text, Alert.populate_description_text,
          htp, hse, hparts, hurl, hht, hdt, except_bind_error, except_bind_ok] at h
  | some dts =>
    simp [Alert.populate_time_ranges, Alert.populate_selected_entities,
          Alert.populate_cause_and_effect, Alert.populate_url,
          Alert.populate_header_text, Alert.populate_description_text,
          htp, hse, hparts, hurl, hht, hdt, except_bind_error, except_bind_ok] at h
    subst h
    simp [htp, hse, hurl, hht, hdt]

/-- C6: for every alert record with non-empty description-text data on
which construction succeeds, the (text, language) description translations
are appended into the **header-text** slot, right after the header
translations, and the description-text slot stays empty — the reference
behavior the claim describes. -/
theorem C6_description_text_written_into_header_slot
    (r : AlertRecord) (hl dl : List TextData) (a : Alert)
    (hh : r.header_text_data = some hl) (hd : r.description_text_data = some dl)
    (hne : dl ≠ []) (h : Alert.init r = .ok a) :
    a.entity.alert.header_text.translation =
      hl.map Alert.generate_translation ++ dl.map Alert.generate_translation ∧
    a.entity.alert.description_text.translation = [] := by
  unfold Alert.init at h
  have hm := Alert.populate_entity_ok h
  obtain ⟨-, -, -, -, -, hhdr, hdesc⟩ := hm
  refine ⟨?_, by simpa using hdesc⟩
  simpa [hh, hd] using hhdr

/-- C6, witness at `exAlertRecord` (one header entry `H`, one description
entry `D`; the built alert's header slot holds both, its description slot
none). -/
theorem C6_witness :
    exAlertRecord.header_text_data = some [{ text := .str "H", language := .str "en" }] ∧
    exAlertRecord.description_text_data = some [{ text := .str "D", language := .str "en" }] ∧
    ∃ a, Alert.init exAlertRecord = .ok a ∧
      a.entity.alert.header_text.translation =
        List.map Alert.generate_translation [{ text := .str "H", language := .str "en" }] ++
        List.map Alert.generate_translation [{ text := .str "D", language := .str "en" }] ∧
      a.entity.alert.description_text.translation = [] :=
  ⟨rfl, rfl, _, rfl,
    C6_description_text_written_into_header_slot exAlertRecord _ _ _ rfl rfl
      (by decide) rfl⟩

/-- C7, counterexample: the claim says every sub-structure other than
cause/effect is absent-safe.  On a fully-populated alert record with only
`url_data` absent, construction raises `TypeError` (iteration over `None`)
instead of succeeding. -/
theorem C7_counterexample_absent_url_data_raises :
    Alert.init exAlertRecordNoUrl = .error .typeError := by decide

/-- C7, amended: the five sub-structures are populated independently in
source order, but none of the iterated ones is absent-safe: a successful
alert construction requires `time_periods`, `selected_entities`,
`url_data`, `header_text_data` and `description_text_data` all present —
an absent one makes the builder raise rather than skip. -/
theorem C7_amended_no_substructure_absent_safe
    (r : AlertRecord) (a : Alert) (h : Alert.init r = .ok a) :
    r.time_periods ≠ Option.none ∧ r.selected_entities ≠ Option.none ∧
    r.url_data ≠ Option.none ∧ r.header_text_data ≠ Option.none ∧
    r.description_text_data ≠ Option.none := by
  unfold Alert.init at h
  have hm := Alert.populate_entity_ok h
  exact ⟨hm.1, hm.2.1, hm.2.2.1, hm.2.2.2.1, hm.2.2.2.2.1⟩

/-- C7, witness for the amended theorem at `exAlertRecord`. -/
theorem C7_amended_witness :
    exAlertRecord.time_periods ≠ Option.none ∧
    exAlertRecord.selected_entities ≠ Option.none ∧
    exAlertRecord.url_data ≠ Option.none ∧
    exAlertRecord.header_text_data ≠ Option.none ∧
    exAlertRecord.description_text_data ≠ Option.none :=
  C7_amended_no_substructure_absent_safe exAlertRecord _ rfl

/-- C8: the claim says finalization is single-use — disallowed or guarded
against re-joining.  The code has no guard: a second `generate_avl_feed`
call on the same instance re-runs `__finalize_metadata` on the already-
joined strings, re-joining them character by character — the trip-id
metadata `"t1 t2"` becomes `"t 1   t 2"`.  (And when the second batch's
records do carry ids, the call instead crashes in `__collect_metadata`,
appending to a string.) -/
theorem C8_refinalization_corrupts_metadata :
    (do
      let s1 ← RealTimeGTFSConstructor.generate_avl_feed {} [exRecord, exRecordT2]
        false 1000
      let s2 ← RealTimeGTFSConstructor.generate_avl_feed s1.1 [exRecordNoIds]
        false 1001
      .ok (s1.1.metadata.trip_ids, s2.1.metadata.trip_ids)
      : Except PyErr (MetaVal × MetaVal))
      = .ok (.joined "t1 t2", .joined "t 1   t 2") ∧
    (do
      let s1 ← RealTimeGTFSConstructor.generate_avl_feed {} [exRecord, exRecordT2]
        false 1000
      let s2 ← RealTimeGTFSConstructor.generate_avl_feed s1.1 [exRecord] false 1001
      .ok s2.1.metadata.trip_ids
      : Except PyErr MetaVal)
      = .error .attributeError := by
  exact ⟨by decide, by decide⟩

/-- A `RealTimeEntity` construction succeeds exactly when its datetime
parses; this is the success direction. -/
theorem realtime_entity_init_ok_of_parse {r : EntityRecord}
    (h : (create_local_datetime r.datetime).isSome = true) :
    ∃ e, RealTimeEntity.init r = .ok e := by
  cases hdt : create_local_datetime r.datetime with
  | none => rw [hdt] at h; simp at h
  | some d =>
    simp only [RealTimeEntity.init, RealTimeEntity.update_time_and_date, hdt]
    exact ⟨_, rfl⟩

/-- A `VehiclePositionEntity` construction succeeds exactly when its
datetime parses; this is the success direction. -/
theorem vehicle_entity_init_ok_of_parse {r : EntityRecord}
    (h : (create_local_datetime r.datetime).isSome = true) :
    ∃ e, VehiclePositionEntity.init r = .ok e := by
  obtain ⟨b, hb⟩ := realtime_entity_init_ok_of_parse h
  simp only [VehiclePositionEntity.init, hb, Except.map]
  exact ⟨_, rfl⟩

/-- Shape invariant on the metadata accumulator: all three values are
still id lists (finalization has not happened yet). -/
def Metadata.isLists (m : Metadata) : Prop :=
  (∃ l, m.trip_ids = .items l) ∧ (∃ l, m.route_ids = .items l) ∧
  (∃ l, m.agency_ids = .items l)

/-- Metadata collection succeeds on un-finalized metadata, leaves the
message untouched and keeps the metadata in list shape. -/
theorem collect_metadata_ok (c : RealTimeGTFSConstructor) (r : EntityRecord)
    (h : c.metadata.isLists) :
    ∃ c', c.collect_metadata r = .ok c' ∧ c'.message = c.message ∧
      c'.metadata.isLists := by
  obtain ⟨⟨l1, h1⟩, ⟨l2, h2⟩, ⟨l3, h3⟩⟩ := h
  by_cases ht : r.trip_id = .none <;> by_cases hr : r.route_id = .none <;>
    by_cases ha : r.agency_id = .none <;>
      simp [RealTimeGTFSConstructor.collect_metadata, MetaVal.append,
            h1, h2, h3, ht, hr, ha, pure, Except.pure, except_bind_ok,
            Metadata.isLists]

/-- The `generate_avl_feed` loop on a batch of records whose datetimes all
parse: it succeeds, appends exactly one entity per record, and touches
neither the header nor the metadata's list shape. -/
theorem add_avl_ok (rs : List EntityRecord) (c : RealTimeGTFSConstructor)
    (hmeta : c.metadata.isLists)
    (hvalid : ∀ r ∈ rs, (create_local_datetime r.datetime).isSome = true) :
    ∃ c', c.add_avl rs = .ok c' ∧
      c'.message.message.entity.length = c.message.message.entity.length + rs.length ∧
      c'.message.message.header = c.message.message.header ∧
      c'.metadata.isLists := by
  induction rs generalizing c with
  | nil => exact ⟨c, rfl, by simp, rfl, hmeta⟩
  | cons r rest ih =>
    obtain ⟨e, he⟩ := vehicle_entity_init_ok_of_parse (hvalid r (by simp))
    obtain ⟨c2, hc2, hmsg2, hmeta2⟩ :=
      collect_metadata_ok
        { c with message.message.entity := c.message.message.entity ++ [e.entity] }
        r hmeta
    obtain ⟨c3, hc3, hlen3, hhdr3, hmeta3⟩ :=
      ih c2 hmeta2 (fun x hx => hvalid x (by simp [hx]))
    refine ⟨c3, ?_, ?_, ?_, hmeta3⟩
    · simp [RealTimeGTFSConstructor.add_avl, he, except_bind_ok, hc2, hc3]
    · rw [hlen3, hmsg2]
      simp [List.length_append]
      omega
    · rw [hhdr3, hmsg2]

/-- C9: for every non-empty batch of records whose datetimes parse, a
freshly constructed assembler's `generate_avl_feed` returns a message with
one entity per record, the incrementality marker selected by
`is_differential`, version string `"2.0"`, and the wall-clock timestamp. -/
theorem C9_generate_avl_feed_count_and_header
    (batch : List EntityRecord) (diff : Bool) (now : ℤ)
    (hne : batch ≠ [])
    (hvalid : ∀ r ∈ batch, (create_local_datetime r.datetime).isSome = true) :
    ∃ c m, RealTimeGTFSConstructor.generate_avl_feed {} batch diff now
        = .ok (c, some m) ∧
      m.message.entity.length = batch.length ∧
      m.message.header.incrementality
        = some (if diff then "DIFFERENTIAL" else "FULL_DATASET") ∧
      m.message.header.gtfs_realtime_version = some "2.0" ∧
      m.message.header.timestamp = some now := by
  obtain ⟨c', hadd, hlen, hhdr, -⟩ :=
    add_avl_ok batch {} ⟨⟨[], rfl⟩, ⟨[], rfl⟩, ⟨[], rfl⟩⟩ hvalid
  have hlen0 : ¬ batch.length = 0 := by
    simpa using fun hz => hne (List.length_eq_zero.mp hz)
  simp only [RealTimeGTFSConstructor.generate_avl_feed, hlen0, if_false, ite_false,
             hadd, except_bind_ok]
  refine ⟨_, _, rfl, ?_, ?_, ?_, ?_⟩ <;>
    simp [FeedMessage.populate_header,
          RealTimeGTFSConstructor.finalize_metadata, hlen]

/-- C9, witness at the one-record batch `[exRecord]` with the differential
flag set. -/
theorem C9_witness :
    ([exRecord] ≠ ([] : List EntityRecord)) ∧
    (∀ r ∈ [exRecord], (create_local_datetime r.datetime).isSome = true) ∧
    ∃ c m, RealTimeGTFSConstructor.generate_avl_feed {} [exRecord] true 1000
        = .ok (c, some m) ∧
      m.message.entity.length = [exRecord].length ∧
      m.message.header.incrementality
        = some (if true then "DIFFERENTIAL" else "FULL_DATASET") ∧
      m.message.header.gtfs_realtime_version = some "2.0" ∧
      m.message.header.timestamp = some 1000 :=
  ⟨by decide, by decide,
    C9_generate_avl_feed_count_and_header [exRecord] true 1000 (by decide) (by decide)⟩

end RealtimeGTFS
